import Mathlib

/-!
# Verification of the iperf2 settings / negotiation-header core

A shallow embedding of the parts of the iperf2 sources relevant to the
frozen claims:

* `src/src/Settings.cpp` — option defaults (`Settings_Initialize`),
  per-option interpretation (`Settings_Interpret`), the second
  "modal" pass (`Settings_ModalOptions`), the negotiation-header
  encoder (`Settings_GenerateClientHdr`) and decoder
  (`Settings_GenerateClientSettings`);
* `src/src/main.cpp` — the mode gate of `main` and the `groupID` counter;
* `src/src/Launch.cpp` — the group-id allocation in `client_init`;
* `src/include/Reporter.h` — the `TimeAdd` macro.

Modelling conventions:

* C machine integers are `Nat`/`Int`; wraparound is written explicitly
  as `% 2^w` exactly where the C code truncates (casts to `uint32_t`,
  unsigned negation, `(unsigned short)` casts).
* `thread_Settings` is a large C struct; the embedding keeps every field
  that any embedded function reads or writes.  Fields that only feed
  subsystems outside the claims (socket handles, TOS, MSS, histogram
  bins, isochronous rates, congestion strings, ...) are omitted; no
  embedded function below touches them.
* Boolean option flags are bits of the C `flags`/`flags_extend` words,
  manipulated only through `set…`/`unset…`/`is…` macros; they are
  modelled as `Bool` fields, and each macro as a record update /
  projection.
* The on-wire header fields are declared `uint32_t`/`uint16_t` and are
  written through `htonl`/`htons` and read through `ntohl`/`ntohs`.
  Byte swapping is a bijection on fixed-width values that cancels
  between writer and reader, and it commutes with the bitwise `&` used
  at `hdr->base.mAmount &= htonl(0x7FFFFFFF)`.  The model therefore
  stores header fields as host-order values and `htonl`/`ntohl`
  reduce to truncation to the field width.
* `float`/`double` values (`-i` interval) are modelled as exact
  rationals; the only uses relevant to the claims are assignments and
  order comparisons against constants.
-/

namespace Iperf2

/-! ## Enumerations (Settings.hpp) -/

/-- The `ThreadMode` from Settings.hpp (declared outside `src/`, but its
constructors are fixed by their uses in the sources). -/
inductive ThreadMode where
  | kMode_Unknown
  | kMode_Server
  | kMode_Client
  | kMode_Reporter
  | kMode_ReporterClient
  | kMode_Listener
  deriving DecidableEq, Repr

/-- The `TestMode` from Settings.hpp. -/
inductive TestMode where
  | kTest_Normal
  | kTest_DualTest
  | kTest_TradeOff
  | kTest_Unknown
  deriving DecidableEq, Repr

/-- The `RateUnits` from Settings.hpp (`kRate_BW`, `kRate_PPS`). -/
inductive RateUnits where
  | kRate_BW
  | kRate_PPS
  deriving DecidableEq, Repr

open ThreadMode TestMode RateUnits

/-! ## thread_Settings -/

/-- The settings struct (`thread_Settings`), restricted to the fields the
embedded functions read or write.  `mAmount` is the unsigned 64-bit
`max_size_t` field, kept as a `Nat` that every mutation reduces
`% 2^64`; `mBufLen`, `mThreads`, `mUDPRate`, `mTTL` are C signed
integers kept as `Int`; `mInterval` is the C `double` kept as `ℚ`. -/
structure thread_Settings where
  -- flag bits of `flags` / `flags_extend`
  modeTime      : Bool := false  -- FLAG_MODETIME
  stdoutFlag    : Bool := false  -- FLAG_STDOUT
  modeInfinite  : Bool := false  -- set by setModeInfinite
  udp           : Bool := false  -- setUDP / isUDP
  ipv6          : Bool := false  -- setIPV6 / isIPV6
  bwSet         : Bool := false  -- setBWSet / isBWSet
  buflenSet     : Bool := false  -- setBuflenSet / isBuflenSet
  enhanced      : Bool := false  -- setEnhanced / isEnhanced
  reverse       : Bool := false  -- setReverse / isReverse
  bidir         : Bool := false  -- setBidir / isBidir
  serverReverse : Bool := false  -- setServerReverse / isServerReverse
  report        : Bool := false  -- setReport / unsetReport
  peerVerDetect : Bool := false  -- setPeerVerDetect / isPeerVerDetect
  connectOnly   : Bool := false  -- setConnectOnly / isConnectOnly
  tripTime      : Bool := false  -- setTripTime / isTripTime
  txStartTime   : Bool := false  -- setTxStartTime / isTxStartTime
  compat        : Bool := false  -- setCompat / isCompat
  l2LengthCheck : Bool := false  -- setL2LengthCheck / isL2LengthCheck
  isoch         : Bool := false  -- setIsochronous / isIsochronous
  -- scalar fields
  mMode         : TestMode := kTest_Normal
  mThreadMode   : ThreadMode := kMode_Unknown
  mUDPRateUnits : RateUnits := kRate_BW
  mUDPRate      : Int := 0
  mBufLen       : Int := 0
  mPort         : Nat := 0
  mBindPort     : Nat := 0
  mListenPort   : Nat := 0
  mThreads      : Int := 0
  mAmount       : Nat := 0
  mInterval     : ℚ := 0
  mTTL          : Int := 0
  mFormat       : Char := ' '
  mHost         : Option String := none
  mLocalhost    : Option String := none
  deriving DecidableEq, Repr

/-! Flag macros from Settings.hpp, each a bit operation on the `flags`
words, modelled as record updates / projections. -/

def setEnhanced (s : thread_Settings) : thread_Settings := { s with enhanced := true }

def setUDP (s : thread_Settings) : thread_Settings := { s with udp := true }

def setIPV6 (s : thread_Settings) : thread_Settings := { s with ipv6 := true }

def setModeTime (s : thread_Settings) : thread_Settings := { s with modeTime := true }

def unsetModeTime (s : thread_Settings) : thread_Settings := { s with modeTime := false }

def setModeInfinite (s : thread_Settings) : thread_Settings := { s with modeInfinite := true }

def setBidir (s : thread_Settings) : thread_Settings := { s with bidir := true }

def setServerReverse (s : thread_Settings) : thread_Settings := { s with serverReverse := true }

def setReport (s : thread_Settings) : thread_Settings := { s with report := true }

def unsetReport (s : thread_Settings) : thread_Settings := { s with report := false }

def setCompat (s : thread_Settings) : thread_Settings := { s with compat := true }

def unsetTripTime (s : thread_Settings) : thread_Settings := { s with tripTime := false }

def unsetConnectOnly (s : thread_Settings) : thread_Settings := { s with connectOnly := false }

def unsetTxStartTime (s : thread_Settings) : thread_Settings := { s with txStartTime := false }

def setL2LengthCheck (s : thread_Settings) : thread_Settings := { s with l2LengthCheck := true }

/-! ## Defaults (Settings.cpp lines 229-290) -/

/-- The `kDefault_UDPRate  = 1024 * 1024` — 1 Mbit/sec. -/
def kDefault_UDPRate : Int := 1024 * 1024

/-- The `kDefault_UDPBufLen = 1470` (IPv4). -/
def kDefault_UDPBufLen : Int := 1470

/-- The `kDefault_UDPBufLenV6 = 1450` (IPv6). -/
def kDefault_UDPBufLenV6 : Int := 1450

/-- The `kDefault_TCPBufLen = 128 * 1024`. -/
def kDefault_TCPBufLen : Int := 128 * 1024

/-- The `Settings_Initialize` (Settings.cpp lines 241-290): `memset` to zero
then the explicit non-zero defaults.  `mSock`, `mReportMode` are outside
the modelled fields. -/
def Settings_Init : thread_Settings :=
  { modeTime      := true         -- flags = FLAG_MODETIME | FLAG_STDOUT
    stdoutFlag    := true
    mUDPRateUnits := kRate_BW
    mMode         := kTest_Normal -- -d,  mMode == kTest_DualTest
    mFormat       := 'a'          -- -f,  adaptive bits
    mBufLen       := kDefault_TCPBufLen
    mPort         := 5001         -- -p,  ttcp port
    mBindPort     := 0
    mThreadMode   := kMode_Unknown
    mAmount       := 1000         -- -t,  10 seconds
    mTTL          := -1 }

/-! ## TimeAdd (Reporter.h lines 397-404) -/

/-- The `struct timeval`; `tv_sec`/`tv_usec` are C signed integers. -/
structure Timeval where
  tv_sec  : Int
  tv_usec : Int
  deriving DecidableEq, Repr

/-- The `rMillion` (Reporter.h line 392). -/
def rMillion : Int := 1000000

/-- The `TimeAdd(left, right)` macro (Reporter.h lines 397-404):
`left.tv_usec += right.tv_usec; if (left.tv_usec > rMillion) {
left.tv_usec -= rMillion; left.tv_sec++; } left.tv_sec += right.tv_sec`.
Returns the mutated `left`. -/
def TimeAdd (left right : Timeval) : Timeval :=
  let l1 : Timeval := { left with tv_usec := left.tv_usec + right.tv_usec }
  let l2 : Timeval :=
    if l1.tv_usec > rMillion then
      { l1 with tv_usec := l1.tv_usec - rMillion, tv_sec := l1.tv_sec + 1 }
    else l1
  { l2 with tv_sec := l2.tv_sec + right.tv_sec }

/-! ## groupID allocation (main.cpp line 92, Launch.cpp lines 219-222) -/

/-- One `client_init` pass over the group-id state (Launch.cpp lines
219-222): under `groupCond`, `groupID--` and then `InitMulti(clients,
groupID)` receives the decremented value.  Returns (new counter value,
id handed to `InitMulti`). -/
def client_init_groupID_step (groupID : Int) : Int × Int :=
  (groupID - 1, groupID - 1)

/-- The `groupID` counter after `n` serialized `client_init` calls;
`int groupID = 0` (main.cpp line 92) is the initial value. -/
def groupID_after : Nat → Int
  | 0 => 0
  | n + 1 => (client_init_groupID_step (groupID_after n)).1

/-- The group id allocated by the `(n+1)`-st `client_init` call. -/
def allocatedGroupID (n : Nat) : Int :=
  (client_init_groupID_step (groupID_after n)).2

/-! ## Negotiation header (client_hdr) -/

/-- Base header flag constants.
Modelled from the spec: the bit values of `HEADER_EXTEND`,
`HEADER_VERSION1`, `HEADER_UDPTESTS`, `HEADER_SEQNO64B` and `RUN_NOW`
live in Settings.hpp, which is not under `src/`; the spec's header
table (§4.5) gives EXTEND (0x0001), VERSION1 (0x0002), UDPTESTS
(0x0004), SEQNO64B (0x0008), RUN_NOW (0x0010). -/
def HEADER_EXTEND : Nat := 0x1

/-- See `HEADER_EXTEND`. -/
def HEADER_VERSION1 : Nat := 0x2

/-- See `HEADER_EXTEND`. -/
def HEADER_UDPTESTS : Nat := 0x4

/-- See `HEADER_EXTEND`. -/
def HEADER_SEQNO64B : Nat := 0x8

/-- See `HEADER_EXTEND`. -/
def RUN_NOW : Nat := 0x10

/-- Extend-header flag constants.
Modelled from the spec: §4.5 lists `extend.flags` as a bitmask holding
`REVERSE`, `BIDIR`, `UNITS_PPS` without numeric values (they are in
Settings.hpp, not under `src/`); they are modelled as three distinct
bits — no claim depends on the particular values. -/
def UNITS_PPS : Nat := 0x1

/-- See `UNITS_PPS`. -/
def REVERSE : Nat := 0x2

/-- See `UNITS_PPS`. -/
def BIDIR : Nat := 0x4

/-- UDP-tests flag constants.
Modelled from the spec: §4.5 lists `udp.testflags` bits `L2LENCHECK`,
`L2ETHPIPV6`, `UDP_ISOCH` (values in Settings.hpp, not under `src/`);
modelled as distinct bits of the 16-bit field. -/
def HEADER_L2LENCHECK : Nat := 0x1

/-- See `HEADER_L2LENCHECK`. -/
def HEADER_L2ETHPIPV6 : Nat := 0x2

/-- See `HEADER_L2LENCHECK`. -/
def HEADER_UDP_ISOCH : Nat := 0x4

/-- The `CLIENTHDR` type tag for `extend.typelen.type`.
Modelled from the spec: value lives outside `src/`; no claim reads it. -/
def CLIENTHDR : Nat := 0x1

/-- Version advertisement words (`IPERF_VERSION_MAJORHEX` /
`MINORHEX` from version.h, not under `src/`).
Modelled from the spec: "peer version advertisement"; the values do not
affect any claim. -/
def IPERF_VERSION_MAJORHEX : Nat := 0x20000000

/-- See `IPERF_VERSION_MAJORHEX`. -/
def IPERF_VERSION_MINORHEX : Nat := 0x000d0000

/-- On-wire subheader sizes (bytes), used only to fill
`hdr->udp.tlvoffset`.  Modelled from the spec: the §4.5 layout table
fixes the field widths (client_hdr_v1 = six 32-bit words, the UDP tests
subheader = two 16-bit plus two 32-bit words, the UDP datagram header =
four 32-bit words with SEQNO64B); no claim reads `tlvoffset`. -/
def sizeof_client_hdr_v1 : Nat := 24

/-- See `sizeof_client_hdr_v1`. -/
def sizeof_client_hdr_udp_tests : Nat := 12

/-- See `sizeof_client_hdr_v1`. -/
def sizeof_UDP_datagram : Nat := 16

/-- See `sizeof_client_hdr_v1`. -/
def sizeof_hdr_typelen : Nat := 8

/-- See `sizeof_client_hdr_v1`. -/
def sizeof_client_hdrext : Nat := 32

/-- See `sizeof_client_hdr_v1`. -/
def sizeof_UDP_isoch_payload : Nat := 40

/-- Byte-order/width conversion for 32-bit header fields: byte swapping
cancels between `htonl` and `ntohl` (see the module comment), so both
reduce in the model to truncation to 32 bits. -/
def ntohl (x : Nat) : Nat := x % 2 ^ 32

/-- See `ntohl`. -/
def htonl (x : Nat) : Nat := x % 2 ^ 32

/-- Sixteen-bit analogue of `ntohl`. -/
def htons (x : Nat) : Nat := x % 2 ^ 16

/-- The `htonl` applied to a C signed integer (the `int` fields `mBufLen`,
`mUDPRate` are passed to `htonl`): two's-complement truncation to
32 bits. -/
def htonlInt (x : Int) : Nat := (x % 2 ^ 32).toNat

/-- Reading a `uint32_t` into a C `int` (e.g. `mBufLen =
ntohl(hdr->base.bufferlen)`): two's-complement reinterpretation. -/
def toInt32 (n : Nat) : Int :=
  if n % 2 ^ 32 < 2 ^ 31 then (n % 2 ^ 32 : Int) else (n % 2 ^ 32 : Int) - 2 ^ 32

/-- Unsigned 64-bit negation (`mAmount = -mAmount` on the
`max_size_t` field). -/
def neg64 (x : Nat) : Nat := (2 ^ 64 - x % 2 ^ 64) % 2 ^ 64

/-- The `client_hdr_v1`: six 32-bit words (host-order values, see `ntohl`). -/
structure client_hdr_v1 where
  flags       : Nat := 0
  numThreads  : Nat := 0
  mPort       : Nat := 0
  bufferlen   : Nat := 0
  mWindowSize : Nat := 0
  mAmount     : Nat := 0
  deriving DecidableEq, Repr

/-- The `hdr_typelen` ({type, length}); `type` is a Lean keyword, hence
field name `ftype`. -/
structure hdr_typelen where
  ftype  : Nat := 0
  length : Nat := 0
  deriving DecidableEq, Repr

/-- The `client_hdrext`. -/
structure client_hdrext where
  typelen   : hdr_typelen := {}
  flags     : Nat := 0
  version_u : Nat := 0
  version_l : Nat := 0
  reserved  : Nat := 0
  mRate     : Nat := 0
  deriving DecidableEq, Repr

/-- The `client_hdr_udp_tests`. -/
structure client_hdr_udp_tests where
  testflags : Nat := 0
  tlvoffset : Nat := 0
  version_u : Nat := 0
  version_l : Nat := 0
  deriving DecidableEq, Repr

/-- The `client_hdr`: the full negotiation header. -/
structure client_hdr where
  base   : client_hdr_v1 := {}
  extend : client_hdrext := {}
  udp    : client_hdr_udp_tests := {}
  deriving DecidableEq, Repr

/-- Reading the unsigned 64-bit `mAmount` as a C `long`
(`-(long)client->mAmount`, Settings.cpp line 1382, 64-bit `long`):
two's-complement reinterpretation. -/
def toInt64 (n : Nat) : Int :=
  if n % 2 ^ 64 < 2 ^ 63 then (n % 2 ^ 64 : Int) else (n % 2 ^ 64 : Int) - 2 ^ 64

/-- The `Settings_GenerateClientHdr` (Settings.cpp lines 1362-1443).
Takes the client settings and the header buffer, returns the flag word
(the C return value) and the updated header.  The imperative flag
accumulation `flags |= …` is rendered as the chain `f0 … f6`; the
conditional field stores are rendered field-wise, each guarded by the
same condition that guards the store in the source (`version1` is the
condition of the block at lines 1368-1390). -/
def Settings_GenerateClientHdr (client : thread_Settings) (hdr : client_hdr) :
    Nat × client_hdr :=
  -- uint32_t flags = 0, extendflags = 0;
  -- if (isPeerVerDetect(client) || (client->mMode != kTest_Normal && isBWSet(client)))
  let f0 : Nat :=
    if client.peerVerDetect || (decide (client.mMode ≠ kTest_Normal) && client.bwSet)
    then 0 ||| HEADER_EXTEND else 0
  -- flags |= HEADER_SEQNO64B;
  let f1 : Nat := f0 ||| HEADER_SEQNO64B
  -- if ((client->mMode != kTest_Normal) || isReverse(client))
  let version1 : Bool := decide (client.mMode ≠ kTest_Normal) || client.reverse
  let f2 : Nat := if version1 then f1 ||| HEADER_VERSION1 else f1
  -- if (client->mMode == kTest_DualTest) flags |= RUN_NOW;  (inside the version1 block)
  let f3 : Nat :=
    if version1 && decide (client.mMode = kTest_DualTest) then f2 ||| RUN_NOW else f2
  -- if (isL2LengthCheck(client) || isIsochronous(client)) flags |= HEADER_UDPTESTS; (inside isUDP)
  let f4 : Nat :=
    if client.udp && (client.l2LengthCheck || client.isoch) then f3 ||| HEADER_UDPTESTS else f3
  -- if (isReverse(client)) { flags |= HEADER_EXTEND; extendflags |= REVERSE; }
  let f5 : Nat := if client.reverse then f4 ||| HEADER_EXTEND else f4
  -- if (isBidir(client)) { flags |= HEADER_EXTEND; extendflags |= BIDIR; }
  let f6 : Nat := if client.bidir then f5 ||| HEADER_EXTEND else f5
  let e0 : Nat := if client.reverse then 0 ||| REVERSE else 0
  let e1 : Nat := if client.bidir then e0 ||| BIDIR else e0
  -- if (client->mUDPRateUnits == kRate_PPS) extendflags |= UNITS_PPS;  (inside the extend block)
  let e2 : Nat := if client.mUDPRateUnits = kRate_PPS then e1 ||| UNITS_PPS else e1
  let base : client_hdr_v1 :=
    { flags := htonl f6   -- hdr->base.flags = htonl(flags);  (line 1427, unconditional)
      numThreads := if version1 then htonlInt client.mThreads else hdr.base.numThreads
      mPort := if version1 then
          (if client.mListenPort ≠ 0 then htonl client.mListenPort else htonl client.mPort)
        else hdr.base.mPort
      bufferlen := if version1 then
          (if client.buflenSet then htonlInt client.mBufLen else 0)
        else hdr.base.bufferlen
      mWindowSize := hdr.base.mWindowSize
      mAmount := if version1 then
          (if client.modeTime then htonlInt (-(toInt64 client.mAmount))
           -- hdr->base.mAmount = htonl((long)client->mAmount); followed by
           -- hdr->base.mAmount &= htonl(0x7FFFFFFF);  (mask in host order, see `ntohl`)
           else htonlInt (toInt64 client.mAmount) &&& 0x7FFFFFFF)
        else hdr.base.mAmount }
  let udp0 : client_hdr_udp_tests :=
    if client.udp then
      { hdr.udp with
        tlvoffset := htons (sizeof_client_hdr_udp_tests + sizeof_client_hdr_v1 +
          sizeof_UDP_datagram) }
    else hdr.udp
  let t0 : Nat :=
    if client.l2LengthCheck then
      (if client.ipv6 then (0 ||| HEADER_L2LENCHECK) ||| HEADER_L2ETHPIPV6
       else 0 ||| HEADER_L2LENCHECK)
    else 0
  let t1 : Nat := if client.isoch then t0 ||| HEADER_UDP_ISOCH else t0
  let udp1 : client_hdr_udp_tests :=
    if client.udp && (client.l2LengthCheck || client.isoch) then
      { udp0 with
        tlvoffset := if client.isoch then
            htons (sizeof_UDP_isoch_payload + sizeof_client_hdr_udp_tests +
              sizeof_client_hdr_v1 + sizeof_UDP_datagram)
          else udp0.tlvoffset
        testflags := htons t1
        version_u := htonl IPERF_VERSION_MAJORHEX
        version_l := htonl IPERF_VERSION_MINORHEX }
    else udp0
  let ext : client_hdrext :=
    if f6 &&& HEADER_EXTEND ≠ 0 then
      { typelen := { ftype := htonl CLIENTHDR
                     length := htonl (sizeof_client_hdrext - sizeof_hdr_typelen) }
        flags := htonl e2
        version_u := htonl IPERF_VERSION_MAJORHEX
        version_l := htonl IPERF_VERSION_MINORHEX
        reserved := 0
        mRate := if client.bwSet then htonlInt client.mUDPRate else hdr.extend.mRate }
    else hdr.extend
  (f6, { base := base, extend := ext, udp := udp1 })

/-- The `Settings_Copy` (Settings.cpp lines 293-...): `memcpy` plus deep
copies of the owned strings — the copy holds the same field values. -/
def Settings_Copy (s : thread_Settings) : thread_Settings := s

/-- The common `fullduplex` mutation block of
`Settings_GenerateClientSettings` (Settings.cpp lines 1267-1290):
`setServerReverse`, `unsetReport`, decode `mAmount` (sign bit selects
time mode, then sign-extend and negate on the unsigned 64-bit field),
then take the offered rate from the extend header unless `-b` was
given locally. -/
def fullduplexUpdate (extendflags : Nat) (hdr : client_hdr)
    (fd : thread_Settings) : thread_Settings :=
  let fd := unsetReport (setServerReverse fd)
  let fd := { fd with mAmount := ntohl hdr.base.mAmount }
  let fd :=
    if fd.mAmount &&& 0x80000000 > 0 then
      let fd := setModeTime fd
      let fd := { fd with mAmount := fd.mAmount ||| 0xFFFFFFFF00000000 }
      { fd with mAmount := neg64 fd.mAmount }
    else
      unsetModeTime fd
  if !fd.bwSet then
    { fd with mUDPRate := (ntohl hdr.extend.mRate : Int)
              mUDPRateUnits :=
                if extendflags &&& UNITS_PPS = UNITS_PPS then kRate_PPS else kRate_BW }
  else fd

/-- The `HEADER_VERSION1` client-generation block of
`Settings_GenerateClientSettings` (Settings.cpp lines 1292-1345).
`extendflags` is the local that is still `0` on this path (the line
1321 block is dead code because this branch requires `HEADER_EXTEND`
clear); `mTID` is a thread id and `mHost` is filled by `inet_ntop`
from the peer socket address — both outside the model, so `mHost` is
cleared like the other string fields it overwrites. -/
def version1Client (server : thread_Settings) (hdr : client_hdr)
    (flags extendflags : Nat) : thread_Settings :=
  let c := setCompat (Settings_Copy server)
  let c := { c with mPort := ntohl hdr.base.mPort % 2 ^ 16   -- (unsigned short) cast
                    mThreads := 1 }
  let c := if hdr.base.bufferlen ≠ 0 then { c with mBufLen := toInt32 (ntohl hdr.base.bufferlen) } else c
  let c := { c with mAmount := ntohl hdr.base.mAmount }
  let c :=
    if c.mAmount &&& 0x80000000 > 0 then
      let c := setModeTime c
      let c := { c with mAmount := c.mAmount ||| 0xFFFFFFFF00000000 }
      { c with mAmount := neg64 c.mAmount }
    else
      unsetModeTime c
  let c := { c with mHost := none, mLocalhost := none
                    mMode := if flags &&& RUN_NOW = 0 then kTest_TradeOff else kTest_DualTest
                    mThreadMode := kMode_Client }
  -- dead on this path: if ((flags & HEADER_EXTEND) != 0) take the rate from the extend block
  let c :=
    if flags &&& HEADER_EXTEND ≠ 0 then
      (if !server.bwSet then
        { c with mUDPRate := (ntohl hdr.extend.mRate : Int)
                 mUDPRateUnits :=
                   if extendflags &&& UNITS_PPS = UNITS_PPS then kRate_PPS else kRate_BW }
       else c)
    else c
  { c with mLocalhost := server.mLocalhost }

/-- The `Settings_GenerateClientSettings` (Settings.cpp lines 1245-1349).
Returns the (possibly mutated) server settings and the `*client`
out-parameter.  On the BIDIR path the copy is mutated and returned; on
the REVERSE path the server settings themselves are mutated and
`*client` stays NULL; with only `HEADER_VERSION1` a compat client is
generated; otherwise `*client = NULL`. -/
def Settings_GenerateClientSettings (server : thread_Settings) (hdr : client_hdr) :
    thread_Settings × Option thread_Settings :=
  let flags := ntohl hdr.base.flags
  if flags &&& HEADER_EXTEND ≠ 0 then
    let extendflags := ntohl hdr.extend.flags
    if extendflags &&& BIDIR = BIDIR ∨ extendflags &&& REVERSE = REVERSE then
      if extendflags &&& BIDIR = BIDIR then
        -- Settings_Copy(server, &fullduplex); *client = fullduplex; setBidir(fullduplex);
        let fd := setBidir (Settings_Copy server)
        (server, some (fullduplexUpdate extendflags hdr fd))
      else
        -- *client = NULL; fullduplex = server;
        (fullduplexUpdate extendflags hdr server, none)
    else (server, none)
  else if flags &&& HEADER_VERSION1 ≠ 0 then
    (server, some (version1Client server hdr flags 0))
  else (server, none)

/-! ## Settings_Interpret (Settings.cpp lines 423-926), the cases the
claims exercise.  Each case mutates the settings struct; cases `h` and
`v` call `exit(1)`, modelled as `Except.error` carrying the exit code.
String-to-number conversion (`strtof`, `byte_atoi`, `atoi`) is C
library code; the interpreted numeric value and, for `-i`, whether the
whole argument parsed (`*end == '\0'`), are taken as arguments. -/

/-- The `SMALLEST_INTERVAL`.
Modelled from the spec: the constant lives in Settings.hpp (not under
`src/`); upstream iperf2 uses 0.005 s (5 ms), consistent with the
spec's boundary rule that any `I < 0.5 s` — including a clamped one —
auto-enables enhanced reporting. -/
def SMALLEST_INTERVAL : ℚ := 5 / 1000

/-- The `case 'h'` (lines 488-492): print usage and `exit(1)`. -/
def Settings_Interpret_h (_s : thread_Settings) : Except Nat thread_Settings :=
  Except.error 1

/-- The `case 'i'` (lines 494-513): `mInterval = strtof(optarg, &end)`;
garbled suffix only warns; otherwise clamp to `SMALLEST_INTERVAL` and
auto-enable enhanced reports below 0.5 s.  `valid` is `*end == '\0'`. -/
def Settings_Interpret_i (optargVal : ℚ) (valid : Bool) (s : thread_Settings) :
    thread_Settings :=
  let s := { s with mInterval := optargVal }
  if valid then
    let s := if s.mInterval < SMALLEST_INTERVAL then { s with mInterval := SMALLEST_INTERVAL } else s
    if s.mInterval < 1 / 2 then setEnhanced s else s
  else s

/-- The `case 'u'` (lines 576-578). -/
def Settings_Interpret_u (s : thread_Settings) : thread_Settings := setUDP s

/-- The `case 'V'` (lines 757-764, HAVE_IPV6 build). -/
def Settings_Interpret_V (s : thread_Settings) : thread_Settings := setIPV6 s

/-- The `case 's'` (lines 555-562): refuse after a client option, else
become the listener. -/
def Settings_Interpret_s (s : thread_Settings) : thread_Settings :=
  if s.mThreadMode ≠ kMode_Unknown then s   -- warn_invalid_client_option
  else { s with mThreadMode := kMode_Listener }

/-- The `case 'c'` (lines 453-462): record the server host; first client
option selects client mode with one thread. -/
def Settings_Interpret_c (host : String) (s : thread_Settings) : thread_Settings :=
  let s := { s with mHost := some host }
  if s.mThreadMode = kMode_Unknown then
    { s with mThreadMode := kMode_Client, mThreads := 1 }
  else s

/-! ## Settings_ModalOptions (Settings.cpp lines 970-1171) -/

/-- The tail of `Settings_ModalOptions` past the `--connect-only` exit
(lines 1004-1171): the client/server-specific fixups, then the L2
block.  The histogram-string, isochronous-string and `-B`/`-c` address
parsing that closes the function reads and writes only string/histogram
fields outside the modelled struct (`mRxHistogramStr`, `mRXbins…`,
`mFPS`, `mIfrname`, multicast detection) and is therefore elided.  The
parse-time globals `infinitetime` (set by `-t` with a non-positive
value, line 573) and `l2checks` (set by `--l2checks`) are passed
explicitly; on the server, the non-client L2 branch is the
`HAVE_LINUX_FILTER_H && HAVE_AF_PACKET` build. -/
def Settings_ModalOptions_tail (infinitetime l2checks : Bool)
    (s : thread_Settings) : thread_Settings :=
  let s :=
    if s.mThreadMode ≠ kMode_Client then
      -- isVaryLoad / isTxStartTime are warnings; only the latter clears a flag
      if s.txStartTime then unsetTxStartTime s else s
    else
      let s :=
        if s.modeTime then
          let s := if infinitetime then setModeInfinite (unsetModeTime s) else s
          if s.modeTime ∧ s.reverse then { s with mAmount := (s.mAmount + 100) % 2 ^ 64 } else s
        else s
      s
  -- L2 settings (lines 1047-1060); `l2checks = 0` resets the global
  if l2checks ∧ s.udp then setL2LengthCheck s else s

/-- The opening of `Settings_ModalOptions` (lines 973-987): default
read/write size from (UDP?, IPv6?, client?) when `-l` was absent, and
default UDP offered load when `-b` was absent. -/
def modalDefaults (s : thread_Settings) : thread_Settings :=
  -- Handle default read/write sizes based on v4, v6, UDP or TCP (lines 973-983)
  let s1 :=
    if ¬s.buflenSet then
      if s.udp then
        if s.ipv6 ∧ s.mThreadMode = kMode_Client then { s with mBufLen := kDefault_UDPBufLenV6 }
        else { s with mBufLen := kDefault_UDPBufLen }
      else { s with mBufLen := kDefault_TCPBufLen }
    else s
  -- Handle default UDP offered load (lines 985-987)
  if ¬s1.bwSet ∧ s1.udp then { s1 with mUDPRate := kDefault_UDPRate } else s1

/-- The `Settings_ModalOptions` (Settings.cpp lines 970-1171): the second,
"modal" pass.  Applies `modalDefaults`, rejects `--trip-time` and
`--connect-only` outside TCP-client mode — the latter with `exit(1)`,
modelled as `Except.error 1` — doubles a reverse time-mode amount, then
runs the tail above. -/
def Settings_ModalOptions (infinitetime l2checks : Bool) (s : thread_Settings) :
    Except Nat thread_Settings :=
  let s2 := modalDefaults s
  if s2.udp ∨ s2.mThreadMode ≠ kMode_Client then
    let s3 := if s2.tripTime then unsetTripTime s2 else s2
    if s3.connectOnly then
      -- fprintf(stderr, "ERROR: … --connect-only requires tcp …"); exit(1);
      Except.error 1
    else
      let s4 := if s3.modeTime ∧ s3.reverse then { s3 with mAmount := (s3.mAmount + s3.mAmount) % 2 ^ 64 } else s3
      Except.ok (Settings_ModalOptions_tail infinitetime l2checks s4)
  else
    Except.ok (Settings_ModalOptions_tail infinitetime l2checks s2)

/-! ## main (main.cpp lines 170-193) -/

/-- The mode gate of `main` (main.cpp lines 170-193): when neither
client nor listener mode was selected, print the short usage text and
`return 0` — i.e. the process exits with code 0.  Returns `some code`
when `main` returns there, `none` when it proceeds to start threads. -/
def main_modeGate (s : thread_Settings) : Option Nat :=
  if s.mThreadMode ≠ kMode_Client ∧ s.mThreadMode ≠ kMode_Listener then
    some 0   -- fprintf(stderr, usage_short, …); return 0;
  else none

/-! # Theorems -/

/-- C10: for timevals with `tv_usec ∈ [0, 1000000)`, `TimeAdd`
preserves the exact sum in microseconds, and the resulting `tv_usec`
lies in `[0, 1000000]`, hitting exactly `1000000` precisely when the
two input `tv_usec` fields sum to exactly `1000000` (the carry test
uses strict `>`). -/
theorem TimeAdd_exact_sum_and_carry (l r : Timeval)
    (hl0 : 0 ≤ l.tv_usec) (hl1 : l.tv_usec < 1000000)
    (hr0 : 0 ≤ r.tv_usec) (hr1 : r.tv_usec < 1000000) :
    (TimeAdd l r).tv_sec * 1000000 + (TimeAdd l r).tv_usec =
      (l.tv_sec * 1000000 + l.tv_usec) + (r.tv_sec * 1000000 + r.tv_usec) ∧
    0 ≤ (TimeAdd l r).tv_usec ∧ (TimeAdd l r).tv_usec ≤ 1000000 ∧
    ((TimeAdd l r).tv_usec = 1000000 ↔ l.tv_usec + r.tv_usec = 1000000) := by
  unfold TimeAdd rMillion
  dsimp only
  split_ifs <;> dsimp only <;> refine ⟨by omega, by omega, by omega, ?_⟩ <;>
    constructor <;> intro <;> omega

/-- Witness for C10 at `(5 s, 999999 µs) + (7 s, 1 µs)` (the exact
boundary case: the usec fields sum to exactly one million and the
result is the unnormalized `1000000`). -/
theorem TimeAdd_exact_sum_and_carry_witness :
    (TimeAdd ⟨5, 999999⟩ ⟨7, 1⟩).tv_sec * 1000000 + (TimeAdd ⟨5, 999999⟩ ⟨7, 1⟩).tv_usec =
      ((5 : Int) * 1000000 + 999999) + ((7 : Int) * 1000000 + 1) ∧
    0 ≤ (TimeAdd ⟨5, 999999⟩ ⟨7, 1⟩).tv_usec ∧
    (TimeAdd ⟨5, 999999⟩ ⟨7, 1⟩).tv_usec ≤ 1000000 ∧
    ((TimeAdd ⟨5, 999999⟩ ⟨7, 1⟩).tv_usec = 1000000 ↔ (999999 : Int) + 1 = 1000000) :=
  TimeAdd_exact_sum_and_carry ⟨5, 999999⟩ ⟨7, 1⟩
    (by norm_num) (by norm_num) (by norm_num) (by norm_num)

/-- The `groupID` counter after `n` serialized `client_init` calls is
`-n`. -/
theorem groupID_after_eq (n : Nat) : groupID_after n = -(n : Int) := by
  induction n with
  | zero => rfl
  | succ n ih =>
    simp only [groupID_after, client_init_groupID_step, ih]
    push_cast
    ring

/-- C8: every group id allocated by `client_init` is strictly negative,
and two distinct calls allocate distinct ids (the counter starts at 0
and is decremented under the `groupCond` lock before each `InitMulti`
call). -/
theorem allocatedGroupID_neg_and_distinct (i j : Nat) (h : i ≠ j) :
    allocatedGroupID i < 0 ∧ allocatedGroupID j < 0 ∧
    allocatedGroupID i ≠ allocatedGroupID j := by
  have e : ∀ n, allocatedGroupID n = -((n : Int) + 1) := by
    intro n
    simp [allocatedGroupID, client_init_groupID_step, groupID_after_eq]
    ring
  rw [e i, e j]
  refine ⟨by omega, by omega, ?_⟩
  intro hEq
  apply h
  omega

/-- Witness for C8 at the first two `client_init` calls. -/
theorem allocatedGroupID_neg_and_distinct_witness :
    allocatedGroupID 0 < 0 ∧ allocatedGroupID 1 < 0 ∧
    allocatedGroupID 0 ≠ allocatedGroupID 1 :=
  allocatedGroupID_neg_and_distinct 0 1 (by norm_num)

/-- Counterexample to C5 as stated: when neither `-s` nor `-c` was
given, `main` prints the usage text and returns **0**, not 1
(main.cpp line 192 `return 0`), so exit code 0 is not reserved for
normal completion. -/
theorem main_modeGate_usage_returns_zero :
    main_modeGate Settings_Init = some 0 ∧ main_modeGate Settings_Init ≠ some 1 := by
  constructor <;> decide

/-- C5 (amended): `-h` exits with code 1 (`Settings_Interpret`, case
`'h'`), but the neither-client-nor-server usage path of `main` returns
exit code 0. -/
theorem help_exits_one_and_usage_returns_zero (s : thread_Settings) :
    Settings_Interpret_h s = Except.error 1 ∧
    main_modeGate Settings_Init = some 0 := by
  constructor
  · rfl
  · decide

/-- The `modalDefaults` only writes `mBufLen` and `mUDPRate`. -/
theorem modalDefaults_preserves (s : thread_Settings) :
    (modalDefaults s).connectOnly = s.connectOnly ∧
    (modalDefaults s).udp = s.udp ∧
    (modalDefaults s).mThreadMode = s.mThreadMode ∧
    (modalDefaults s).tripTime = s.tripTime := by
  unfold modalDefaults
  dsimp only
  split_ifs <;> simp

/-- C4: `--connect-only` together with UDP, or outside client mode,
makes `Settings_ModalOptions` print a diagnostic and `exit(1)` during
option post-processing (before any traffic thread starts). -/
theorem connectOnly_invalid_exits_one (infinitetime l2checks : Bool)
    (s : thread_Settings) (hc : s.connectOnly = true)
    (hm : s.udp = true ∨ s.mThreadMode ≠ kMode_Client) :
    Settings_ModalOptions infinitetime l2checks s = Except.error 1 := by
  obtain ⟨pc, pu, pm, pt⟩ := modalDefaults_preserves s
  unfold Settings_ModalOptions
  dsimp only
  rw [if_pos (by rw [pu, pm]; exact hm)]
  split_ifs with h1 h2 h3
  · rfl
  · exact absurd (by rw [show (unsetTripTime (modalDefaults s)).connectOnly =
      (modalDefaults s).connectOnly from rfl, pc]; exact hc) h2
  · rfl
  · exact absurd (by rw [pc]; exact hc) h3

/-- Witness for C4: a UDP client with `--connect-only`. -/
theorem connectOnly_invalid_exits_one_witness :
    ({ Settings_Init with
       connectOnly := true
       udp := true
       mThreadMode := ThreadMode.kMode_Client } : thread_Settings).connectOnly = true ∧
    Settings_ModalOptions false false
      { Settings_Init with
        connectOnly := true
        udp := true
        mThreadMode := ThreadMode.kMode_Client } = Except.error 1 :=
  ⟨rfl, connectOnly_invalid_exits_one false false _ rfl (Or.inl rfl)⟩

/-- C6: a valid `-i` argument below 0.5 s leaves the
enhanced-reporting flag set after `Settings_Interpret` processes the
option (either directly, or — below `SMALLEST_INTERVAL` — after the
clamp, which also lands below 0.5 s). -/
theorem interval_lt_half_enables_enhanced (s : thread_Settings) (I : ℚ)
    (h : I < 1 / 2) :
    (Settings_Interpret_i I true s).enhanced = true := by
  unfold Settings_Interpret_i
  dsimp only
  split_ifs <;> simp_all [setEnhanced, SMALLEST_INTERVAL]
  linarith

/-- Witness for C6 at `-i 0.25`. -/
theorem interval_lt_half_enables_enhanced_witness :
    ((1 : ℚ) / 4 < 1 / 2) ∧
    (Settings_Interpret_i (1 / 4) true Settings_Init).enhanced = true :=
  ⟨by norm_num, interval_lt_half_enables_enhanced Settings_Init (1 / 4) (by norm_num)⟩

/-- Counterexample to C7 as stated: for a UDP server over IPv6
(`-s -u -V`, no `-l`), the default buffer length is 1470, not 1450 —
the 1450-byte IPv6 default applies only in client mode
(Settings.cpp line 975 tests `isIPV6 && mThreadMode == kMode_Client`). -/
theorem udp_ipv6_server_buflen_is_1470 :
    (Settings_ModalOptions false false
        (Settings_Interpret_V (Settings_Interpret_u
          (Settings_Interpret_s Settings_Init)))).map (fun s => s.mBufLen) =
      Except.ok 1470 ∧ (1470 : Int) ≠ 1450 := by
  constructor
  · rfl
  · decide

/-- C7 (amended): after `Settings_Init` and `Settings_ModalOptions`
with no explicit `-l`, `-b`, `-p` or `-t`/`-n`: the buffer length is
128 KiB for TCP, and for UDP it is 1450 only for an IPv6 **client**,
1470 otherwise (IPv4, or an IPv6 server); the UDP offered rate defaults
to 1 Mbit/s (1024·1024), the port to 5001, and the duration to 10
seconds (`mAmount = 1000` in 10-ms units, time mode). -/
theorem modal_defaults_buflen_rate_port_time (udp v6 client : Bool) :
    ∃ s',
      Settings_ModalOptions false false
        ((fun s1 => if v6 then Settings_Interpret_V s1 else s1)
          ((fun s0 => if udp then Settings_Interpret_u s0 else s0)
            (if client then Settings_Interpret_c "host" Settings_Init
             else Settings_Interpret_s Settings_Init))) = Except.ok s' ∧
      s'.mBufLen = (if udp then (if v6 ∧ client then 1450 else 1470) else 128 * 1024) ∧
      (udp = true → s'.mUDPRate = 1024 * 1024) ∧
      s'.mPort = 5001 ∧ s'.mAmount = 1000 ∧ s'.modeTime = true := by
  cases udp <;> cases v6 <;> cases client <;>
    exact ⟨_, rfl, by decide, by decide, by decide, by decide, by decide⟩

/-! ### Bit-arithmetic helpers for the header fields -/

/-- ORing the sign-extension mask onto a 32-bit value is addition
(the bit ranges are disjoint). -/
theorem lor_signext_eq_add (x : Nat) (h : x < 2 ^ 32) :
    x ||| 0xFFFFFFFF00000000 = 0xFFFFFFFF00000000 + x := by
  rw [Nat.lor_comm, show (0xFFFFFFFF00000000 : Nat) = 2 ^ 32 * 0xFFFFFFFF by norm_num]
  exact (Nat.mul_add_lt_is_or h _).symm

/-- A 32-bit value with its top bit set tests positive against
`0x80000000`. -/
theorem and_signbit_of_ge (x : Nat) (h1 : 2 ^ 31 ≤ x) (h2 : x < 2 ^ 32) :
    x &&& 0x80000000 = 0x80000000 := by
  have hb : x.testBit 31 = true := by
    rw [Nat.testBit_to_div_mod]
    simp only [decide_eq_true_eq]
    omega
  rw [show (0x80000000 : Nat) = 2 ^ 31 by norm_num, Nat.and_two_pow, hb]
  norm_num

/-- A value below `2^31` tests zero against `0x80000000`. -/
theorem and_signbit_of_lt (x : Nat) (h : x < 2 ^ 31) :
    x &&& 0x80000000 = 0 := by
  rw [show (0x80000000 : Nat) = 2 ^ 31 by norm_num, Nat.and_two_pow,
    Nat.testBit_lt_two_pow h]
  norm_num

/-- Masking a value below `2^31` with `0x7FFFFFFF` is the identity. -/
theorem and_mask31_of_lt (b : Nat) (h : b < 2 ^ 31) :
    b &&& 0x7FFFFFFF = b := by
  rw [show (0x7FFFFFFF : Nat) = 2 ^ 31 - 1 by norm_num,
    Nat.and_pow_two_sub_one_eq_mod]
  omega

/-- The `fullduplex` block never clears the bidir flag. -/
theorem fullduplexUpdate_bidir (extendflags : Nat) (hdr : client_hdr)
    (fd : thread_Settings) :
    (fullduplexUpdate extendflags hdr fd).bidir = fd.bidir := by
  unfold fullduplexUpdate unsetReport setServerReverse setModeTime unsetModeTime
  dsimp only
  split_ifs <;> rfl

/-- C2: when both the BIDIR and REVERSE extend-flag bits are set in a
received header with the extend block present,
`Settings_GenerateClientSettings` takes the BIDIR path: it returns a
copied settings struct with the bidir flag set in `*client`, not the
REVERSE path's `*client = NULL`. -/
theorem bidir_wins_over_reverse (srv : thread_Settings) (hdr : client_hdr)
    (hext : ntohl hdr.base.flags &&& HEADER_EXTEND ≠ 0)
    (hb : ntohl hdr.extend.flags &&& BIDIR = BIDIR)
    (_hr : ntohl hdr.extend.flags &&& REVERSE = REVERSE) :
    ∃ c, (Settings_GenerateClientSettings srv hdr).2 = some c ∧ c.bidir = true := by
  unfold Settings_GenerateClientSettings
  dsimp only
  rw [if_pos hext, if_pos (Or.inl hb), if_pos hb]
  exact ⟨_, rfl, by rw [fullduplexUpdate_bidir]; rfl⟩

/-- Witness for C2: a header with `flags = HEADER_EXTEND` and
`extend.flags = BIDIR | REVERSE`, received by a default server. -/
theorem bidir_wins_over_reverse_witness :
    (ntohl (6 : Nat) &&& BIDIR = BIDIR) ∧ (ntohl (6 : Nat) &&& REVERSE = REVERSE) ∧
    ∃ c, (Settings_GenerateClientSettings Settings_Init
      { base := { flags := 1 }, extend := { flags := 6 } }).2 = some c ∧
      c.bidir = true :=
  ⟨by decide, by decide,
    bidir_wins_over_reverse Settings_Init
      { base := { flags := 1 }, extend := { flags := 6 } }
      (by decide) (by decide) (by decide)⟩

/-- C9: `Settings_GenerateClientHdr` always sets `HEADER_SEQNO64B`,
both in its returned flag word and in the header's `base.flags`, for
every client settings struct and header buffer. -/
theorem seqno64b_always_set (cl : thread_Settings) (h0 : client_hdr) :
    (Settings_GenerateClientHdr cl h0).1 &&& HEADER_SEQNO64B = HEADER_SEQNO64B ∧
    ntohl (Settings_GenerateClientHdr cl h0).2.base.flags &&& HEADER_SEQNO64B =
      HEADER_SEQNO64B := by
  unfold Settings_GenerateClientHdr
  dsimp only
  constructor <;> split_ifs <;> decide

/-- C3: in a received header with `HEADER_VERSION1` set and
`HEADER_EXTEND` clear, the spawned counter-flow gets mode
`kTest_DualTest` exactly when `RUN_NOW` is set (else `kTest_TradeOff`);
and symmetrically `Settings_GenerateClientHdr` puts `RUN_NOW` in the
outgoing flag word exactly when the client's `mMode` is
`kTest_DualTest`. -/
theorem runnow_selects_dualtest (srv : thread_Settings) (hdr : client_hdr)
    (hv : ntohl hdr.base.flags &&& HEADER_VERSION1 ≠ 0)
    (he : ntohl hdr.base.flags &&& HEADER_EXTEND = 0) :
    (∃ c, (Settings_GenerateClientSettings srv hdr).2 = some c ∧
       (c.mMode = kTest_DualTest ↔ ntohl hdr.base.flags &&& RUN_NOW ≠ 0) ∧
       (ntohl hdr.base.flags &&& RUN_NOW = 0 → c.mMode = kTest_TradeOff)) ∧
    (∀ (cl : thread_Settings) (h0 : client_hdr),
       (Settings_GenerateClientHdr cl h0).1 &&& RUN_NOW ≠ 0 ↔
         cl.mMode = kTest_DualTest) := by
  constructor
  · unfold Settings_GenerateClientSettings
    dsimp only
    rw [if_neg (by simp [he]), if_pos hv]
    refine ⟨_, rfl, ?_⟩
    unfold version1Client Settings_Copy setCompat setModeTime unsetModeTime
    dsimp only
    split_ifs with h1 h2 h3 <;> simp_all
  · intro cl h0
    unfold Settings_GenerateClientHdr
    dsimp only
    by_cases hd : cl.mMode = kTest_DualTest <;> simp [hd] <;> split_ifs <;> decide

/-- Witness for C3: a header with `flags = HEADER_VERSION1` only
(`RUN_NOW` absent), received by a default server — the counter-flow
mode is TradeOff. -/
theorem runnow_selects_dualtest_witness :
    (ntohl ((2 : Nat)) &&& HEADER_VERSION1 ≠ 0) ∧
    ((∃ c, (Settings_GenerateClientSettings Settings_Init
        { base := { flags := 2 } }).2 = some c ∧
       (c.mMode = kTest_DualTest ↔
         ntohl ({ base := { flags := 2 } } : client_hdr).base.flags &&& RUN_NOW ≠ 0) ∧
       (ntohl ({ base := { flags := 2 } } : client_hdr).base.flags &&& RUN_NOW = 0 →
         c.mMode = kTest_TradeOff)) ∧
     (∀ (cl : thread_Settings) (h0 : client_hdr),
       (Settings_GenerateClientHdr cl h0).1 &&& RUN_NOW ≠ 0 ↔
         cl.mMode = kTest_DualTest)) :=
  ⟨by decide,
    runnow_selects_dualtest Settings_Init { base := { flags := 2 } }
      (by decide) (by decide)⟩

/-! ### C1: round-trip of the test-amount field -/

/-- Encoder flag word for a non-Normal client with no `-b`, no
peer-detect, no `-R`/`--bidir`: `HEADER_VERSION1` is sent and
`HEADER_EXTEND` is not. -/
theorem encode_flags_no_extend (cl : thread_Settings) (h0 : client_hdr)
    (hmode : cl.mMode ≠ kTest_Normal) (hpv : cl.peerVerDetect = false)
    (hbw : cl.bwSet = false) (hrev : cl.reverse = false) (hbid : cl.bidir = false) :
    ntohl (Settings_GenerateClientHdr cl h0).2.base.flags &&& HEADER_EXTEND = 0 ∧
    ntohl (Settings_GenerateClientHdr cl h0).2.base.flags &&& HEADER_VERSION1 ≠ 0 := by
  unfold Settings_GenerateClientHdr
  dsimp only
  simp only [hpv, hbw, hrev, hbid, hmode]
  constructor <;> simp <;> split_ifs <;> decide

/-- Encoder amount field in time mode: for `mAmount = a` with
`0 < a < 2^31`, the stored 32-bit field is `2^32 − a`
(`htonl(-(long)client->mAmount)`). -/
theorem encode_amount_time (cl : thread_Settings) (h0 : client_hdr)
    (hmode : cl.mMode ≠ kTest_Normal) (ht : cl.modeTime = true)
    (a : Nat) (ha : cl.mAmount = a) (ha0 : 0 < a) (ha1 : a < 2 ^ 31) :
    ntohl (Settings_GenerateClientHdr cl h0).2.base.mAmount = 2 ^ 32 - a := by
  unfold Settings_GenerateClientHdr
  dsimp only
  have hv1 : (decide (cl.mMode ≠ kTest_Normal) || cl.reverse) = true := by simp [hmode]
  simp only [hv1, ht, ha, if_true]
  unfold ntohl htonlInt toInt64
  split_ifs <;> omega

/-- Encoder amount field in byte mode: for `mAmount = b` with
`b < 2^31`, the stored 32-bit field is `b` itself
(`htonl((long)client->mAmount) & htonl(0x7FFFFFFF)`). -/
theorem encode_amount_byte (cl : thread_Settings) (h0 : client_hdr)
    (hmode : cl.mMode ≠ kTest_Normal) (ht : cl.modeTime = false)
    (b : Nat) (hb : cl.mAmount = b) (hb1 : b < 2 ^ 31) :
    ntohl (Settings_GenerateClientHdr cl h0).2.base.mAmount = b := by
  unfold Settings_GenerateClientHdr
  dsimp only
  have hv1 : (decide (cl.mMode ≠ kTest_Normal) || cl.reverse) = true := by simp [hmode]
  simp only [hv1, ht, hb, if_true]
  simp only [eq_self_iff_true, if_true, Bool.false_eq_true, if_false]
  have e1 : htonlInt (toInt64 b) = b := by
    unfold htonlInt toInt64
    split_ifs <;> omega
  rw [e1, and_mask31_of_lt b hb1]
  unfold ntohl
  omega

/-- Decoder, time mode: a VERSION1 (no-extend) header whose 32-bit
amount field holds `2^32 − a` (sign bit set) yields a client in time
mode with `mAmount = a`. -/
theorem decode_version1_time (srv : thread_Settings) (hdr : client_hdr)
    (hfe : ntohl hdr.base.flags &&& HEADER_EXTEND = 0)
    (hfv : ntohl hdr.base.flags &&& HEADER_VERSION1 ≠ 0)
    (a : Nat) (ha0 : 0 < a) (ha1 : a < 2 ^ 31)
    (hamt : ntohl hdr.base.mAmount = 2 ^ 32 - a) :
    ∃ c, (Settings_GenerateClientSettings srv hdr).2 = some c ∧
      c.modeTime = true ∧ c.mAmount = a := by
  unfold Settings_GenerateClientSettings
  dsimp only
  rw [if_neg (by simp [hfe]), if_pos hfv]
  refine ⟨_, rfl, ?_⟩
  unfold version1Client Settings_Copy setCompat setModeTime unsetModeTime
  dsimp only
  have hs : (2 ^ 32 - a) &&& 0x80000000 = 0x80000000 :=
    and_signbit_of_ge _ (by omega) (by omega)
  have hlor : (2 ^ 32 - a) ||| 0xFFFFFFFF00000000 = 0xFFFFFFFF00000000 + (2 ^ 32 - a) :=
    lor_signext_eq_add _ (by omega)
  simp only [hamt, hs, hlor, hfe]
  split_ifs <;> simp_all <;> unfold neg64 <;> omega

/-- Decoder, byte mode: a VERSION1 (no-extend) header whose 32-bit
amount field holds `b < 2^31` (sign bit clear) yields a client in byte
mode with `mAmount = b`. -/
theorem decode_version1_byte (srv : thread_Settings) (hdr : client_hdr)
    (hfe : ntohl hdr.base.flags &&& HEADER_EXTEND = 0)
    (hfv : ntohl hdr.base.flags &&& HEADER_VERSION1 ≠ 0)
    (b : Nat) (hb1 : b < 2 ^ 31)
    (hamt : ntohl hdr.base.mAmount = b) :
    ∃ c, (Settings_GenerateClientSettings srv hdr).2 = some c ∧
      c.modeTime = false ∧ c.mAmount = b := by
  unfold Settings_GenerateClientSettings
  dsimp only
  rw [if_neg (by simp [hfe]), if_pos hfv]
  refine ⟨_, rfl, ?_⟩
  unfold version1Client Settings_Copy setCompat setModeTime unsetModeTime
  dsimp only
  have hs : b &&& 0x80000000 = 0 := and_signbit_of_lt _ hb1
  simp only [hamt, hs, hfe]
  split_ifs <;> simp_all

/-- C1 (amended): round-trip of the test-amount field through the
negotiation header, for a client that emits a VERSION1 header without
the extend block (non-Normal mode; no peer-detect, `-b`, `-R` or
`--bidir`): in time mode with `mAmount = s·100` and `0 < s·100 < 2^31`,
decode∘encode yields time mode with amount `s·100`; in byte mode with
byte count `b < 2^31`, it yields byte mode with amount `b`.  The
bounds are forced by the 32-bit width of the wire field (its top bit
is the mode flag). -/
theorem amount_roundtrip (srv cl : thread_Settings) (h0 : client_hdr)
    (hmode : cl.mMode ≠ kTest_Normal) (hpv : cl.peerVerDetect = false)
    (hbw : cl.bwSet = false) (hrev : cl.reverse = false) (hbid : cl.bidir = false) :
    (∀ s : Nat, cl.modeTime = true → cl.mAmount = s * 100 →
      0 < s → s * 100 < 2 ^ 31 →
      ∃ c, (Settings_GenerateClientSettings srv
              (Settings_GenerateClientHdr cl h0).2).2 = some c ∧
        c.modeTime = true ∧ c.mAmount = s * 100) ∧
    (∀ b : Nat, cl.modeTime = false → cl.mAmount = b → b < 2 ^ 31 →
      ∃ c, (Settings_GenerateClientSettings srv
              (Settings_GenerateClientHdr cl h0).2).2 = some c ∧
        c.modeTime = false ∧ c.mAmount = b) := by
  obtain ⟨hfe, hfv⟩ := encode_flags_no_extend cl h0 hmode hpv hbw hrev hbid
  constructor
  · intro s ht ha hs0 hs1
    exact decode_version1_time srv _ hfe hfv (s * 100) (by omega) hs1
      (encode_amount_time cl h0 hmode ht (s * 100) ha (by omega) hs1)
  · intro b ht hb hb1
    exact decode_version1_byte srv _ hfe hfv b hb1
      (encode_amount_byte cl h0 hmode ht b hb hb1)

/-- Witness for C1 (amended): a trade-off client with the default
10-second duration (`mAmount = 1000 = 10·100`). -/
theorem amount_roundtrip_witness :
    (({ Settings_Init with mMode := kTest_TradeOff } : thread_Settings).mMode ≠
      kTest_Normal) ∧
    ((∀ s : Nat,
        ({ Settings_Init with mMode := kTest_TradeOff } : thread_Settings).modeTime = true →
        ({ Settings_Init with mMode := kTest_TradeOff } : thread_Settings).mAmount = s * 100 →
        0 < s → s * 100 < 2 ^ 31 →
        ∃ c, (Settings_GenerateClientSettings Settings_Init
                (Settings_GenerateClientHdr
                  { Settings_Init with mMode := kTest_TradeOff } {}).2).2 = some c ∧
          c.modeTime = true ∧ c.mAmount = s * 100) ∧
     (∀ b : Nat,
        ({ Settings_Init with mMode := kTest_TradeOff } : thread_Settings).modeTime = false →
        ({ Settings_Init with mMode := kTest_TradeOff } : thread_Settings).mAmount = b →
        b < 2 ^ 31 →
        ∃ c, (Settings_GenerateClientSettings Settings_Init
                (Settings_GenerateClientHdr
                  { Settings_Init with mMode := kTest_TradeOff } {}).2).2 = some c ∧
          c.modeTime = false ∧ c.mAmount = b)) :=
  ⟨by decide,
    amount_roundtrip Settings_Init { Settings_Init with mMode := kTest_TradeOff } {}
      (by decide) rfl rfl rfl rfl⟩

/-- Counterexample to C1 as stated: a byte-mode client with
`mAmount = 2^31` (representable in the 64-bit settings field, e.g.
`-n 2G`).  The encoder stores `b & 0x7FFFFFFF = 0` into the 32-bit
wire field, so decoding yields amount 0, not `b`. -/
theorem amount_roundtrip_counterexample :
    ((Settings_GenerateClientSettings Settings_Init
        (Settings_GenerateClientHdr
          { Settings_Init with
            mMode := kTest_TradeOff
            modeTime := false
            mAmount := 2 ^ 31 } {}).2).2.map (fun c => c.mAmount)) = some 0 ∧
    (0 : Nat) ≠ 2 ^ 31 := by
  constructor
  · rfl
  · decide

end Iperf2
